import Mathlib

/-!
Verification development for the piano synchronization system: a shallow
embedding in Lean 4 of the session state machine of the coordinating server
and the per-device synchronization core, together with proofs and
refutations of the behavioural properties stated in the specification.

Times are wall-clock milliseconds, music times are seconds, both modelled
as exact rationals; tempo values are beats per minute.
-/

namespace PianoSync

/-! ## Device-side synchronization core

Embeds the PianoSyncCore class of the client: the tempo-aware music-time
calculator, the sync_start / tempo_change / sync_stop handlers and the
latency estimator. The wall clock (performance.now in the source) is passed
explicitly as the `now` argument to each handler. -/

/-- Entry of the per-device tempo-change history, as pushed by the
tempo_change handler: arrival time, the bpm before and after the change and
the music time at the instant of the change. -/
structure TempoChangeEntry where
  time : ℚ
  oldBpm : ℚ
  newBpm : ℚ
  musicTimeAtChange : ℚ
deriving DecidableEq

/-- State of one device synchronization core: the fields of PianoSyncCore
that the music-time calculator and latency estimator read and write. -/
structure PianoSyncCore where
  isPlaying : Bool
  currentSong : Option String
  startTime : ℚ
  originalBpm : ℚ
  currentBpm : ℚ
  tempoChanges : List TempoChangeEntry
  baseMusicTime : ℚ
  lastTempoChangeTime : ℚ
  latency : ℚ
  serverTimeOffset : ℚ
deriving DecidableEq

/-- Initial device state, from the PianoSyncCore constructor. -/
def initCore : PianoSyncCore :=
  { isPlaying := false
    currentSong := none
    startTime := 0
    originalBpm := 120
    currentBpm := 120
    tempoChanges := []
    baseMusicTime := 0
    lastTempoChangeTime := 0
    latency := 0
    serverTimeOffset := 0 }

/-- Music time (seconds into the score) at wall-clock time `now`.
The source returns 0 when not playing or when startTime is falsy (0);
with no recorded tempo change it is elapsed real time since startTime,
otherwise it advances from the last breakpoint at rate
currentBpm / originalBpm, clamped at 0. -/
def getMusicTime (s : PianoSyncCore) (now : ℚ) : ℚ :=
  if s.isPlaying = false ∨ s.startTime = 0 then 0
  else if s.tempoChanges = [] then
    max 0 ((now - s.startTime) / 1000)
  else
    max 0 (s.baseMusicTime +
      ((now - s.lastTempoChangeTime) / 1000) * (s.currentBpm / s.originalBpm))

/-- Handler for sync_start received at local time `now`: resets the tempo
history, then reconstructs the timeline, either fresh (elapsedTime = 0) or
as a late join (startTime back-dated by elapsedTime seconds and
baseMusicTime preset to elapsedTime). -/
def handleSyncStart (s : PianoSyncCore) (song : String) (bpm elapsedTime now : ℚ) :
    PianoSyncCore :=
  let s0 := { s with
    currentSong := some song
    originalBpm := bpm
    currentBpm := bpm
    tempoChanges := ([] : List TempoChangeEntry)
    baseMusicTime := (0 : ℚ)
    lastTempoChangeTime := (0 : ℚ) }
  if 0 < elapsedTime then
    { s0 with
      startTime := now - elapsedTime * 1000
      baseMusicTime := elapsedTime
      lastTempoChangeTime := now
      isPlaying := true }
  else
    { s0 with
      startTime := now
      baseMusicTime := 0
      lastTempoChangeTime := now
      isPlaying := true }

/-- Handler for tempo_change received at local time `now`: evaluates the
music time before any update, pushes a history entry recording it, then
moves the breakpoint to `now` with the new bpm. -/
def handleTempoChange (s : PianoSyncCore) (bpm now : ℚ) : PianoSyncCore :=
  let oldMusicTime := getMusicTime s now
  { s with
    tempoChanges := s.tempoChanges ++
      [{ time := now, oldBpm := s.currentBpm, newBpm := bpm,
         musicTimeAtChange := oldMusicTime }]
    currentBpm := bpm
    baseMusicTime := oldMusicTime
    lastTempoChangeTime := now }

/-- Handler for sync_stop: clears the playing flag and the whole timeline
state, so subsequent getMusicTime calls return 0. -/
def handleSyncStop (s : PianoSyncCore) : PianoSyncCore :=
  { s with
    isPlaying := false
    currentSong := none
    startTime := 0
    tempoChanges := []
    baseMusicTime := 0
    lastTempoChangeTime := 0 }

/-- Handler for pong received at local time `now`, carrying the echoed
client timestamp and the server timestamp: sets latency to the full round
trip and the clock offset to serverTime - now + rtt / 2. -/
def calculateLatency (s : PianoSyncCore) (echoedTimestamp serverTime now : ℚ) :
    PianoSyncCore :=
  let roundTripTime := now - echoedTimestamp
  { s with
    latency := roundTripTime
    serverTimeOffset := serverTime - now + roundTripTime / 2 }

/-! ## Server-side session state machine

Embeds the PianoSyncServer class of the coordinator: the session record,
the start / stop / tempo operations, the note_played handler with its
completion grace timer and silence watchdog, and the late-join catch-up of
the register handler. Pending setTimeout timers are modelled as data:
deadlines stored in the state, fired by explicit events; a field holding
no deadline means no timer is armed, so no autonomous transition can
occur. -/

/-- A note event of a loaded song; only the length of the note lists
matters to the session logic. -/
structure NoteEvent where
  note : String
  time : ℚ
  duration : ℚ
deriving DecidableEq

/-- A loaded song. The melody and accompaniment tracks may be absent
(undefined in the source), which the note-count computation treats as
empty. -/
structure Song where
  id : String
  title : String
  duration : ℚ
  bpm : ℚ
  melody : Option (List NoteEvent)
  accompaniment : Option (List NoteEvent)
deriving DecidableEq

/-- The authoritative session record created by startPerformance. -/
structure Session where
  songId : String
  startTime : ℚ
  totalNotes : Nat
  playedNotes : Nat
  bpm : ℚ
  status : String
  duration : ℚ
deriving DecidableEq

/-- Messages the server sends to devices. The sync_start payload carries
the whole song object in the source; the model records its id. -/
inductive ServerMsg where
  | syncStart (songId : String) (startTime bpm serverTime elapsedTime : ℚ)
  | syncStop (serverTime : ℚ)
  | tempoChange (bpm serverTime : ℚ)
deriving DecidableEq

/-- Server state: song catalog, current session, the isPlaying / song /
bpm mirror kept in systemStatus, and the timer bookkeeping. silenceTimeout
is the armed silence-watchdog deadline, if any; pendingStops are the
deadlines of completion-grace stop callbacks scheduled by the note_played
handler (the source never stores or cancels these). -/
structure ServerState where
  songs : List Song
  currentSession : Option Session
  isPlaying : Bool
  currentSong : Option String
  statusBpm : ℚ
  lastNoteTime : Option ℚ
  silenceTimeout : Option ℚ
  pendingStops : List ℚ
deriving DecidableEq

/-- Silence-watchdog window in milliseconds (maxSilenceDuration). -/
def maxSilenceDuration : ℚ := 10000

/-- Number of notes in an optional track: length if present, 0 if the
field is absent. -/
def noteCount : Option (List NoteEvent) → Nat
  | none => 0
  | some l => l.length

/-- A JavaScript runtime error escaping a handler. -/
inductive JsError where
  | typeError (msg : String)
deriving DecidableEq

/-- Value returned by startPerformance to its caller. The noSongsAvailable
branch mirrors the unreachable guard of the source (see below). -/
inductive StartResult where
  | started (songId : String) (startTime : ℚ)
  | noSongsAvailable
deriving DecidableEq

/-- Server state before any session, with the given loaded catalog. -/
def initialServer (songs : List Song) : ServerState :=
  { songs := songs
    currentSession := none
    isPlaying := false
    currentSong := none
    statusBpm := 120
    lastNoteTime := none
    silenceTimeout := none
    pendingStops := [] }

/-- Operation startPerformance(songId, bpm) at wall-clock time `now`.
The source resolves the song as find-by-id with fallback to the first
catalog entry, then immediately reads song.melody to compute the total
note count: when no song resolved this read throws a TypeError, so the
subsequent if-not-song guard that would return a failure result is
unreachable. On success it clears the silence timer (without arming a new
one), installs the session, and broadcasts sync_start with elapsedTime 0. -/
def startPerformance (st : ServerState) (songId : String) (bpm now : ℚ) :
    Except JsError (ServerState × List ServerMsg × StartResult) :=
  let songOpt : Option Song :=
    match st.songs.find? (fun s => s.id == songId) with
    | some s => some s
    | none => st.songs.head?
  match songOpt with
  | none => Except.error
      (JsError.typeError "Cannot read properties of undefined (reading melody)")
  | some song =>
    let totalNotes := noteCount song.melody + noteCount song.accompaniment
    let sess : Session :=
      { songId := song.id
        startTime := now
        totalNotes := totalNotes
        playedNotes := 0
        bpm := bpm
        status := "playing"
        duration := song.duration }
    let st1 : ServerState :=
      { st with
        lastNoteTime := some now
        silenceTimeout := none
        currentSession := some sess
        isPlaying := true
        currentSong := some song.id
        statusBpm := bpm }
    Except.ok (st1,
      [ServerMsg.syncStart song.id now bpm now 0],
      StartResult.started song.id now)

/-- Operation stopPerformance at wall-clock time `now`: a no-op without a
session; otherwise broadcasts sync_stop and discards the session. The
source does not cancel the silence timer or pending grace stops here;
firing them later hits the no-session branch and does nothing. -/
def stopPerformance (st : ServerState) (now : ℚ) :
    ServerState × List ServerMsg :=
  match st.currentSession with
  | none => (st, [])
  | some _ =>
    ({ st with currentSession := none, isPlaying := false, currentSong := none },
     [ServerMsg.syncStop now])

/-- Operation changeTempo(newBpm) at wall-clock time `now`: a no-op
without a session; otherwise updates the session bpm and the systemStatus
mirror and broadcasts tempo_change. Nothing else in the server state is
touched. -/
def changeTempo (st : ServerState) (newBpm now : ℚ) :
    ServerState × List ServerMsg :=
  match st.currentSession with
  | none => (st, [])
  | some sess =>
    ({ st with currentSession := some { sess with bpm := newBpm },
               statusBpm := newBpm },
     [ServerMsg.tempoChange newBpm now])

/-- The note_played case of handleClientMessage at wall-clock time `now`:
a no-op without a session; otherwise increments playedNotes, records the
time and clears the silence timer; then, if the count has reached the
total, schedules a stop one second later and returns without re-arming
the watchdog, else arms the silence watchdog. -/
def handleNotePlayed (st : ServerState) (now : ℚ) :
    ServerState × List ServerMsg :=
  match st.currentSession with
  | none => (st, [])
  | some sess =>
    let sess1 := { sess with playedNotes := sess.playedNotes + 1 }
    let st1 := { st with
      currentSession := some sess1
      lastNoteTime := some now
      silenceTimeout := none }
    if sess1.totalNotes ≤ sess1.playedNotes then
      ({ st1 with pendingStops := st1.pendingStops ++ [now + 1000] }, [])
    else
      ({ st1 with silenceTimeout := some (now + maxSilenceDuration) }, [])

/-- The register case of handleClientMessage at wall-clock time `now`:
when a session is playing, the joining device is sent a catch-up
sync_start whose elapsedTime is the wall-clock seconds since the session
started, (now - startTime) / 1000, and whose bpm is the session bpm at
the moment of the join. -/
def registerCatchUp (st : ServerState) (now : ℚ) : Option ServerMsg :=
  match st.currentSession with
  | none => none
  | some sess =>
    if st.isPlaying then
      some (ServerMsg.syncStart sess.songId sess.startTime sess.bpm now
        ((now - sess.startTime) / 1000))
    else none

/-- Firing of the silence-watchdog callback at its deadline: the timer is
consumed and stopPerformance runs. -/
def fireSilence (st : ServerState) (now : ℚ) : ServerState × List ServerMsg :=
  if st.silenceTimeout = some now then
    stopPerformance { st with silenceTimeout := none } now
  else (st, [])

/-- Session invariant claimed by the specification: the played-note count
never exceeds the total. -/
def noteInvariantHolds (st : ServerState) : Prop :=
  ∀ sess, st.currentSession = some sess → sess.playedNotes ≤ sess.totalNotes

/-! ## Concrete scenario states -/

/-- A one-note demo song. -/
def demoSong : Song :=
  { id := "demo"
    title := "Demo"
    duration := 30
    bpm := 120
    melody := some [{ note := "C4", time := 0, duration := 1 }]
    accompaniment := none }

/-- A three-note song, used where completion must stay out of reach. -/
def longSong : Song :=
  { id := "long"
    title := "Long"
    duration := 120
    bpm := 120
    melody := some [{ note := "C4", time := 0, duration := 1 },
                    { note := "D4", time := 1, duration := 1 },
                    { note := "E4", time := 2, duration := 1 }]
    accompaniment := none }

/-- Server state after start(demo, 120) at time 0, two note_played
messages at times 100 and 200 following: the second arrives inside the
one-second completion grace window opened by the first. -/
def c4State : ServerState :=
  match startPerformance (initialServer [demoSong]) "demo" 120 0 with
  | Except.ok (st, _, _) => (handleNotePlayed (handleNotePlayed st 100).1 200).1
  | Except.error _ => initialServer []

/-- Server state immediately after start(long, 120) at time 0, before any
note_played. -/
def c5State : ServerState :=
  match startPerformance (initialServer [longSong]) "long" 120 0 with
  | Except.ok (st, _, _) => st
  | Except.error _ => initialServer []

/-- A playing server state used to exhibit what changeTempo does. -/
def c2Session : Session :=
  { songId := "demo"
    startTime := 0
    totalNotes := 2
    playedNotes := 0
    bpm := 120
    status := "playing"
    duration := 30 }

/-- Enclosing server state for the changeTempo observation. -/
def c2Server : ServerState :=
  { songs := [demoSong]
    currentSession := some c2Session
    isPlaying := true
    currentSong := some "demo"
    statusBpm := 120
    lastNoteTime := some 0
    silenceTimeout := none
    pendingStops := [] }

/-- A playing server state with a three-note session and one note played,
used to witness the silence-watchdog behaviour. -/
def c5WitnessServer : ServerState :=
  { songs := [longSong]
    currentSession := some
      { songId := "long"
        startTime := 0
        totalNotes := 3
        playedNotes := 0
        bpm := 120
        status := "playing"
        duration := 120 }
    isPlaying := true
    currentSong := some "long"
    statusBpm := 120
    lastNoteTime := some 0
    silenceTimeout := none
    pendingStops := [] }

/-- Server state after the C1 trace start: start(demo, 120) at time
1000. -/
def c1ServerStarted : ServerState :=
  match startPerformance (initialServer [demoSong]) "demo" 120 1000 with
  | Except.ok (st, _, _) => st
  | Except.error _ => initialServer []

/-- Server state of the C1 trace after changeTempo(60) at time 11000. -/
def c1ServerAfterTempo : ServerState := (changeTempo c1ServerStarted 60 11000).1

/-- Device connected since the fresh start of the C1 trace: sync_start
with bpm 120 and elapsedTime 0 at time 1000, then tempo_change to 60 at
time 11000, exactly as broadcast by the server trace. -/
def c1DeviceA : PianoSyncCore :=
  handleTempoChange (handleSyncStart initCore "demo" 120 0 1000) 60 11000

/-- Device joining the C1 trace at time 21000, fed the catch-up
sync_start fields the server computes at that moment: bpm 60 (the session
bpm after the tempo change) and elapsedTime 20 wall-clock seconds. -/
def c1DeviceB : PianoSyncCore := handleSyncStart initCore "demo" 60 20 21000

/-- Device that received the scenario sync_start with bpm 120 at local
time 1000ms. -/
def c6Device0 : PianoSyncCore := handleSyncStart initCore "demo" 120 0 1000

/-- Same device after the scenario tempo_change to bpm 60 arriving at
local time 11000ms, the instant its music time equals 10 seconds. -/
def c6Device1 : PianoSyncCore := handleTempoChange c6Device0 60 11000

/-! ## Theorems -/

/-- Music time is never negative: both branches of the calculator clamp at
0 and the idle case returns 0. -/
theorem getMusicTime_nonneg (s : PianoSyncCore) (now : ℚ) :
    0 ≤ getMusicTime s now := by
  unfold getMusicTime
  split
  · exact le_refl 0
  · split <;> exact le_max_left 0 _

/-- C6: a device that processes sync_start with bpm 120, then tempo_change
to bpm 60 at the instant its music time is 10 seconds, reports music time
10 + 10 * (60 / 120) = 15 seconds when evaluated 10 real seconds after the
tempo change. -/
theorem C6_tempo_halving_scenario : getMusicTime c6Device1 21000 = 15 := by
  norm_num [c6Device1, c6Device0, initCore, handleSyncStart, handleTempoChange,
    getMusicTime]

/-- C7: the music-time function is continuous at every tempo breakpoint:
the baseMusicTime recorded by the tempo_change handler equals the value of
getMusicTime evaluated before the state update, and re-evaluating
getMusicTime at the breakpoint instant after the update returns the same
value, so there is no jump discontinuity. -/
theorem C7_breakpoint_continuity (s : PianoSyncCore) (bpm t : ℚ)
    (h : 0 < s.originalBpm) :
    (handleTempoChange s bpm t).baseMusicTime = getMusicTime s t ∧
    getMusicTime (handleTempoChange s bpm t) t = getMusicTime s t := by
  constructor
  · rfl
  · have hnn := getMusicTime_nonneg s t
    by_cases hp : s.isPlaying = false ∨ s.startTime = 0
    · have h1 : getMusicTime s t = 0 := by unfold getMusicTime; simp [hp]
      have h2 : getMusicTime (handleTempoChange s bpm t) t = 0 := by
        unfold getMusicTime handleTempoChange
        simp [hp]
      rw [h1, h2]
    · have h2 : getMusicTime (handleTempoChange s bpm t) t
          = max 0 (getMusicTime s t) := by
        conv_lhs => unfold getMusicTime
        unfold handleTempoChange
        simp [hp]
      rw [h2, max_eq_right hnn]

/-- Witness for C7 at a concrete device state and breakpoint. -/
theorem C7_breakpoint_continuity_witness :
    0 < initCore.originalBpm ∧
    ((handleTempoChange initCore 60 5000).baseMusicTime
        = getMusicTime initCore 5000 ∧
      getMusicTime (handleTempoChange initCore 60 5000) 5000
        = getMusicTime initCore 5000) :=
  ⟨by norm_num [initCore],
   C7_breakpoint_continuity initCore 60 5000 (by norm_num [initCore])⟩

/-- C8: with positive original and current bpm, getMusicTime is monotone
non-decreasing in wall-clock time on a fixed device state (between tempo
changes the state is fixed), and for every state and time the returned
music time is non-negative. -/
theorem C8_monotone_nonneg (s : PianoSyncCore) (t1 t2 : ℚ)
    (hob : 0 < s.originalBpm) (hcb : 0 < s.currentBpm) (h12 : t1 ≤ t2) :
    getMusicTime s t1 ≤ getMusicTime s t2 ∧
    ∀ (u : PianoSyncCore) (t : ℚ), 0 ≤ getMusicTime u t := by
  refine ⟨?_, fun u t => getMusicTime_nonneg u t⟩
  have hr : 0 ≤ s.currentBpm / s.originalBpm := le_of_lt (div_pos hcb hob)
  unfold getMusicTime
  split
  · exact le_refl 0
  · split
    · have hd : (t1 - s.startTime) / 1000 ≤ (t2 - s.startTime) / 1000 := by
        apply div_le_div_of_nonneg_right (by linarith) (by norm_num)
      exact max_le_max (le_refl 0) hd
    · have hd : (t1 - s.lastTempoChangeTime) / 1000
          ≤ (t2 - s.lastTempoChangeTime) / 1000 := by
        apply div_le_div_of_nonneg_right (by linarith) (by norm_num)
      have hm : (t1 - s.lastTempoChangeTime) / 1000 * (s.currentBpm / s.originalBpm)
          ≤ (t2 - s.lastTempoChangeTime) / 1000 * (s.currentBpm / s.originalBpm) :=
        mul_le_mul_of_nonneg_right hd hr
      exact max_le_max (le_refl 0) (by linarith)

/-- Witness for C8 at a concrete device state and pair of times. -/
theorem C8_monotone_nonneg_witness :
    0 < initCore.originalBpm ∧ 0 < initCore.currentBpm ∧ (1000 : ℚ) ≤ 2000 ∧
    (getMusicTime initCore 1000 ≤ getMusicTime initCore 2000 ∧
      ∀ (u : PianoSyncCore) (t : ℚ), 0 ≤ getMusicTime u t) :=
  ⟨by norm_num [initCore], by norm_num [initCore], by norm_num,
   C8_monotone_nonneg initCore 1000 2000 (by norm_num [initCore])
     (by norm_num [initCore]) (by norm_num)⟩

/-- C9: on pong receipt with echoed timestamp e and server timestamp srv,
evaluated at local time n, the estimator sets latency to the full round
trip n - e and the clock offset to srv - n + (n - e) / 2. -/
theorem C9_latency_and_offset (s : PianoSyncCore) (e srv n : ℚ) :
    (calculateLatency s e srv n).latency = n - e ∧
    (calculateLatency s e srv n).serverTimeOffset = srv - n + (n - e) / 2 :=
  ⟨rfl, rfl⟩

/-- C10: a note_played received while no session exists leaves the server
state completely unchanged and sends nothing. -/
theorem C10_no_session_noop (st : ServerState) (t : ℚ)
    (h : st.currentSession = none) :
    handleNotePlayed st t = (st, []) := by
  unfold handleNotePlayed
  rw [h]

/-- Witness for C10 at the initial server state. -/
theorem C10_no_session_noop_witness :
    (initialServer []).currentSession = none ∧
    handleNotePlayed (initialServer []) 500 = (initialServer [], []) :=
  ⟨rfl, C10_no_session_noop (initialServer []) 500 rfl⟩

/-- C3: with an empty song catalog, startPerformance resolves no song and
the immediate read of song.melody for the note count throws a TypeError
before the guard that would return the no-songs failure result, so the
start crashes instead of failing cleanly. This evaluates the code at that
failing input. -/
theorem C3_start_crashes_on_empty_catalog :
    startPerformance (initialServer []) "demo" 120 0
      = Except.error (JsError.typeError
          "Cannot read properties of undefined (reading melody)") := rfl

/-- C4, counterexample: starting the one-note demo song and processing two
note_played messages, the second arriving inside the one-second completion
grace window opened by the first, drives playedNotes to 2 while totalNotes
is 1, violating the claimed invariant. -/
theorem C4_counterexample :
    c4State.currentSession = some
      { songId := "demo", startTime := 0, totalNotes := 1, playedNotes := 2,
        bpm := 120, status := "playing", duration := 30 } ∧
    ¬ noteInvariantHolds c4State := by
  constructor
  · rfl
  · intro h
    have h2 := h
      { songId := "demo", startTime := 0, totalNotes := 1, playedNotes := 2,
        bpm := 120, status := "playing", duration := 30 } rfl
    simp at h2

/-- C4, amended: a note_played processed while the played count is still
strictly below the total increments it by one and preserves the invariant
playedNotes ≤ totalNotes; the invariant is only at risk for messages
arriving after the count has already reached the total, during the grace
window before the scheduled stop fires. -/
theorem C4_bounded_before_completion (st : ServerState) (sess : Session)
    (t : ℚ) (hs : st.currentSession = some sess)
    (hlt : sess.playedNotes < sess.totalNotes) :
    (handleNotePlayed st t).1.currentSession
        = some { sess with playedNotes := sess.playedNotes + 1 } ∧
    noteInvariantHolds (handleNotePlayed st t).1 := by
  have hcs : (handleNotePlayed st t).1.currentSession
      = some { sess with playedNotes := sess.playedNotes + 1 } := by
    unfold handleNotePlayed
    rw [hs]
    by_cases hc : sess.totalNotes ≤ sess.playedNotes + 1
    · simp [hc]
    · simp [hc]
  refine ⟨hcs, ?_⟩
  intro sess1 h1
  rw [hcs] at h1
  have h2 := Option.some.inj h1
  rw [← h2]
  simpa using hlt

/-- Witness for the amended C4 at a concrete playing state. -/
theorem C4_bounded_before_completion_witness :
    c2Server.currentSession = some c2Session ∧
    c2Session.playedNotes < c2Session.totalNotes ∧
    ((handleNotePlayed c2Server 700).1.currentSession
        = some { c2Session with playedNotes := c2Session.playedNotes + 1 } ∧
      noteInvariantHolds (handleNotePlayed c2Server 700).1) :=
  ⟨rfl, by decide,
   C4_bounded_before_completion c2Server c2Session 700 rfl (by decide)⟩

/-- C5, counterexample: startPerformance leaves the silence-timeout slot
empty and schedules nothing, so a fresh session in which no note_played
ever arrives has no armed watchdog: the state says playing, no deadline
exists anywhere, and a silence-fire event is a no-op. The watchdog is
armed only by note_played, contradicting the claim that the start
transition arms it. -/
theorem C5_counterexample :
    c5State.isPlaying = true ∧ c5State.silenceTimeout = none ∧
    c5State.pendingStops = [] ∧
    fireSilence c5State 10000 = (c5State, []) :=
  ⟨rfl, rfl, rfl, rfl⟩

/-- C5, amended: the silence watchdog is armed by each note_played that
leaves the played count strictly below the total, with deadline 10000ms
after that note; if it fires at that deadline the session transitions to
Idle and exactly one sync_stop is broadcast. A session in which no
note_played ever arrives never arms the watchdog. -/
theorem C5_watchdog_from_note (st : ServerState) (sess : Session) (t : ℚ)
    (hs : st.currentSession = some sess)
    (hlt : sess.playedNotes + 1 < sess.totalNotes) :
    (handleNotePlayed st t).1.silenceTimeout = some (t + maxSilenceDuration) ∧
    (fireSilence (handleNotePlayed st t).1 (t + maxSilenceDuration)).1.currentSession
      = none ∧
    (fireSilence (handleNotePlayed st t).1 (t + maxSilenceDuration)).1.isPlaying
      = false ∧
    (fireSilence (handleNotePlayed st t).1 (t + maxSilenceDuration)).2
      = [ServerMsg.syncStop (t + maxSilenceDuration)] := by
  have hnot : ¬ sess.totalNotes ≤ sess.playedNotes + 1 := by omega
  have hstep : (handleNotePlayed st t).1 = { st with
      currentSession := some { sess with playedNotes := sess.playedNotes + 1 }
      lastNoteTime := some t
      silenceTimeout := some (t + maxSilenceDuration) } := by
    unfold handleNotePlayed
    rw [hs]
    simp [hnot]
  rw [hstep]
  unfold fireSilence stopPerformance
  simp

/-- Witness for the amended C5 at a concrete playing state. -/
theorem C5_watchdog_from_note_witness :
    c5WitnessServer.currentSession = some
      { songId := "long", startTime := 0, totalNotes := 3, playedNotes := 0,
        bpm := 120, status := "playing", duration := 120 } ∧
    (0 : Nat) + 1 < 3 ∧
    ((handleNotePlayed c5WitnessServer 50).1.silenceTimeout
        = some (50 + maxSilenceDuration) ∧
      (fireSilence (handleNotePlayed c5WitnessServer 50).1
          (50 + maxSilenceDuration)).1.currentSession = none ∧
      (fireSilence (handleNotePlayed c5WitnessServer 50).1
          (50 + maxSilenceDuration)).1.isPlaying = false ∧
      (fireSilence (handleNotePlayed c5WitnessServer 50).1
          (50 + maxSilenceDuration)).2
        = [ServerMsg.syncStop (50 + maxSilenceDuration)]) :=
  ⟨rfl, by norm_num,
   C5_watchdog_from_note c5WitnessServer
     { songId := "long", startTime := 0, totalNotes := 3, playedNotes := 0,
       bpm := 120, status := "playing", duration := 120 } 50 rfl (by norm_num)⟩

/-- C2, counterexample: a tempo command on a playing session returns a
server state identical to the input except for the session bpm and the
systemStatus bpm mirror, plus the tempo_change broadcast. The session
record of the source has no tempoChangeLog field at all, and this
whole-state equality shows the operation appends an entry to nothing. -/
theorem C2_counterexample :
    changeTempo c2Server 90 5000
      = ({ c2Server with
            currentSession := some { c2Session with bpm := 90 }
            statusBpm := 90 },
         [ServerMsg.tempoChange 90 5000]) := rfl

/-- C2, amended: while a session exists, changeTempo updates only the
session bpm and broadcasts tempo_change; the append-only log capturing
music time at each change is kept per device, where the tempo_change
handler appends exactly one entry recording getMusicTime at the instant
of the change, and the log times stay strictly increasing whenever events
are processed at strictly increasing local times. -/
theorem C2_tempo_log_on_device (st : ServerState) (sess : Session)
    (newBpm t : ℚ) (hs : st.currentSession = some sess) (c : PianoSyncCore) :
    (changeTempo st newBpm t).1.currentSession = some { sess with bpm := newBpm } ∧
    (changeTempo st newBpm t).2 = [ServerMsg.tempoChange newBpm t] ∧
    (handleTempoChange c newBpm t).tempoChanges
      = c.tempoChanges ++
        [{ time := t, oldBpm := c.currentBpm, newBpm := newBpm,
           musicTimeAtChange := getMusicTime c t }] ∧
    (List.Chain' (fun a b => a.time < b.time) c.tempoChanges →
      (∀ e ∈ c.tempoChanges, e.time < t) →
      List.Chain' (fun a b => a.time < b.time)
        (handleTempoChange c newBpm t).tempoChanges) := by
  refine ⟨?_, ?_, rfl, ?_⟩
  · unfold changeTempo
    rw [hs]
  · unfold changeTempo
    rw [hs]
  · intro hch hall
    unfold handleTempoChange
    rw [List.chain'_append]
    refine ⟨hch, List.chain'_singleton _, ?_⟩
    intro x hx y hy
    simp only [List.head?_cons, Option.mem_def, Option.some.injEq] at hy
    obtain ⟨hne, hxeq⟩ := List.mem_getLast?_eq_getLast hx
    rw [← hy, hxeq]
    exact hall _ (List.getLast_mem hne)

/-- Witness for the amended C2 at a concrete server state and device. -/
theorem C2_tempo_log_on_device_witness :
    c2Server.currentSession = some c2Session ∧
    ((changeTempo c2Server 90 5000).1.currentSession
        = some { c2Session with bpm := 90 } ∧
      (changeTempo c2Server 90 5000).2 = [ServerMsg.tempoChange 90 5000] ∧
      (handleTempoChange initCore 90 5000).tempoChanges
        = initCore.tempoChanges ++
          [{ time := 5000, oldBpm := initCore.currentBpm, newBpm := 90,
             musicTimeAtChange := getMusicTime initCore 5000 }] ∧
      (List.Chain' (fun a b => a.time < b.time) initCore.tempoChanges →
        (∀ e ∈ initCore.tempoChanges, e.time < 5000) →
        List.Chain' (fun a b => a.time < b.time)
          (handleTempoChange initCore 90 5000).tempoChanges)) :=
  ⟨rfl, C2_tempo_log_on_device c2Server c2Session 90 5000 rfl initCore⟩

/-- C1: in the trace start(bpm 120) at time 1000, tempo change to 60 at
time 11000 (music time 10s), join at time 21000, the server catch-up
sync_start carries elapsedTime 20 wall-clock seconds and bpm 60; the
device present since the start then reads music time 15s while the joiner
reads 20s at the same instant, a 5 second gap far beyond the 50ms sync
tolerance, because the server ignores the tempo history when computing
elapsedTime. -/
theorem C1_latejoin_divergence :
    registerCatchUp c1ServerAfterTempo 21000
      = some (ServerMsg.syncStart "demo" 1000 60 21000 20) ∧
    getMusicTime c1DeviceA 21000 = 15 ∧
    getMusicTime c1DeviceB 21000 = 20 ∧
    (50 : ℚ) / 1000 < |getMusicTime c1DeviceB 21000 - getMusicTime c1DeviceA 21000| := by
  have hA : getMusicTime c1DeviceA 21000 = 15 := by
    norm_num [c1DeviceA, initCore, handleSyncStart, handleTempoChange, getMusicTime]
  have hB : getMusicTime c1DeviceB 21000 = 20 := by
    norm_num [c1DeviceB, initCore, handleSyncStart, getMusicTime]
  have hS : registerCatchUp c1ServerAfterTempo 21000
      = some (ServerMsg.syncStart "demo" 1000 60 21000 20) := by
    norm_num [registerCatchUp, c1ServerAfterTempo, c1ServerStarted, initialServer,
      demoSong, startPerformance, changeTempo, noteCount]
  refine ⟨hS, hA, hB, ?_⟩
  rw [hA, hB]
  norm_num

end PianoSync
